import Mathlib

/-!
Verification of the get_time_agent workflow (src/get_time_agent.py).

The source is a LangGraph pipeline whose shared state is a Python dict
conforming to the AgentState TypedDict schema, with five nodes (get_time,
get_month_name, format, is_AM, is_PM), a linear chain of edges and one
conditional branch decided by is_AM_or_PM.

The mutable Python dict is modelled as an association list of string keys to
dynamic `Value`s; dict assignment `d[k] = v` is `alinsert` (overwrite in
place, append if new).  Each graph node becomes a function
`AgentState → Except StepErr AgentState`: Python exceptions (KeyError,
TypeError, AttributeError, and errors raised out of an agent `run_sync`
call) become `Except.error`.  The two LLM agents are external collaborators
and are passed in as oracles; the executor (the compiled LangGraph
`app.invoke`) is a fuel-bounded step function over the registered nodes,
edges and conditional edges, which also records the trace of executed node
names.
-/

/-- Python `datetime.datetime`: the fields of the object.  Only `hour` is
inspected by the branch decision of the workflow. -/
structure DateTime where
  year : Nat
  month : Nat
  day : Nat
  hour : Nat
  minute : Nat
  second : Nat
deriving Repr, DecidableEq

/-- Zero-pad a numeral to two digits, as Python `datetime.__str__` does. -/
def pad2 (n : Nat) : String :=
  if n < 10 then "0" ++ toString n else toString n

/-- Zero-pad a year to four digits, as Python `datetime.__str__` does. -/
def pad4 (n : Nat) : String :=
  if n < 10 then "000" ++ toString n
  else if n < 100 then "00" ++ toString n
  else if n < 1000 then "0" ++ toString n
  else toString n

/-- Python `str(datetime)`: `YYYY-MM-DD HH:MM:SS`. -/
def DateTime.toPyStr (d : DateTime) : String :=
  pad4 d.year ++ "-" ++ pad2 d.month ++ "-" ++ pad2 d.day ++ " " ++
    pad2 d.hour ++ ":" ++ pad2 d.minute ++ ":" ++ pad2 d.second

/-- A dynamic Python value as stored in the state dict: the workflow stores
strings, `datetime` objects, booleans, `None`, and (for `final_answer`)
a nested dict. -/
inductive Value : Type where
  | vStr (s : String)
  | vDateTime (dt : DateTime)
  | vBool (b : Bool)
  | vNone
  | vDict (entries : List (String × Value))

/-- Association-list lookup: `d[k]` read, `none` when the key is absent. -/
def alookup {α : Type} : List (String × α) → String → Option α
  | [], _ => none
  | (k, v) :: rest, key => if k = key then some v else alookup rest key

/-- Python dict assignment `d[key] = val`: overwrite in place if the key
exists (keeping its position), append otherwise. -/
def alinsert {α : Type} : List (String × α) → String → α → List (String × α)
  | [], key, val => [(key, val)]
  | (k, v) :: rest, key, val =>
      if k = key then (k, val) :: rest else (k, v) :: alinsert rest key val

/-- The set of keys of a dict. -/
def dkeys {α : Type} (d : List (String × α)) : List String := d.map Prod.fst

mutual

/-- Python `str(v)`: how a value prints inside an f-string. -/
def Value.pyStr : Value → String
  | .vStr s => s
  | .vDateTime d => d.toPyStr
  | .vBool b => if b then "True" else "False"
  | .vNone => "None"
  | .vDict es => "\x7b" ++ pyEntries es ++ "\x7d"

/-- Python `repr(v)`: how a value prints inside a container. -/
def Value.pyRepr : Value → String
  | .vStr s => "\x27" ++ s ++ "\x27"
  | .vDateTime d => "datetime.datetime(" ++ toString d.year ++ ", " ++
      toString d.month ++ ", " ++ toString d.day ++ ", " ++
      toString d.hour ++ ", " ++ toString d.minute ++ ", " ++
      toString d.second ++ ")"
  | .vBool b => if b then "True" else "False"
  | .vNone => "None"
  | .vDict es => "\x7b" ++ pyEntries es ++ "\x7d"

/-- The comma-separated key and repr-of-value entries of a dict repr. -/
def pyEntries : List (String × Value) → String
  | [] => ""
  | [(k, v)] => "\x27" ++ k ++ "\x27: " ++ v.pyRepr
  | (k, v) :: rest => "\x27" ++ k ++ "\x27: " ++ v.pyRepr ++ ", " ++ pyEntries rest

end

/-- The runtime state dict of the workflow (Python `AgentState` TypedDict:
a plain dict at run time, the TypedDict declaration only annotates it). -/
def AgentState : Type := List (String × Value)

/-- The slot names declared by the `AgentState` TypedDict. -/
def agentStateSchema : List String :=
  ["get_time_prompt", "timezone", "time_data", "utc_offset",
   "month_name", "month_emoji", "final_answer"]

/-- How a node (or branch decision) fails: the Python exception classes that
can escape the node functions. -/
inductive StepErr : Type where
  | keyError (k : String)
  | typeError (msg : String)
  | attributeError (msg : String)
  | agentError (e : String)
deriving Repr, DecidableEq

/-- Input schema of the time agent (`TimeInput` dataclass); the field holds
whatever value the caller passed (Python does not enforce the `str`
annotation). -/
structure TimeInput where
  timezone_input : Value

/-- Output schema the time agent is forced to return (`TimeOutput`). -/
structure TimeOutput where
  time_data_output : DateTime
  utc_offset_output : String
deriving Repr, DecidableEq

/-- Output schema of the month-name agent (`MonthNameOutput`). -/
structure MonthNameOutput where
  month_name_output : String
  month_name_output_emoji : String
deriving Repr, DecidableEq

/-- The external time agent: `time_agent.run_sync(prompt, deps)` — an LLM
call that either produces a `TimeOutput` or raises. -/
def TimeAgent : Type := Value → TimeInput → Except String TimeOutput

/-- The external month-name agent: `month_name_agent.run_sync(prompt)`. -/
def MonthAgent : Type := String → Except String MonthNameOutput

/-- A JSON value, as returned by `json.loads`. -/
inductive Json : Type where
  | null
  | jbool (b : Bool)
  | jnum (n : Int)
  | jstr (s : String)
  | jarr (elems : List Json)
  | jobj (fields : List (String × Json))

/-- What `json.loads(response.data)` yields for an HTTP response body:
either a parse error (malformed payload) or a JSON value. -/
inductive BodyResult : Type where
  | malformed
  | json (j : Json)

/-- Result of `urllib3.request("GET", url)`: a raised network error, or a
response carrying a status code and a body.  `urllib3.request` does not
raise on a non-2xx status. -/
inductive NetResult : Type where
  | netError (e : String)
  | response (status : Nat) (body : BodyResult)

/-- The `get_time` tool registered on the time agent: fetch
`http://worldtimeapi.org/api/timezone/{tz}` and return the `"datetime"`
field of the parsed JSON body.  Any exception (network error from urllib3,
`json.loads` failure, KeyError on a missing field, TypeError indexing a
non-object) propagates; the HTTP status code is never inspected. -/
def get_time (fetch : String → NetResult) (timezone_input : String) :
    Except String Json :=
  match fetch ("http://worldtimeapi.org/api/timezone/" ++ timezone_input) with
  | NetResult.netError e => Except.error e
  | NetResult.response _status body =>
    match body with
    | BodyResult.malformed => Except.error "json.loads: malformed payload"
    | BodyResult.json j =>
      match j with
      | Json.jobj fields =>
        match alookup fields "datetime" with
        | some v => Except.ok v
        | none => Except.error "KeyError: datetime"
      | _ => Except.error "TypeError: value is not subscriptable"

/-- Node `get_time`: run the time agent on `state["get_time_prompt"]` with
`TimeInput(state["timezone"])`, then write `time_data` and `utc_offset`. -/
def get_time_node (ta : TimeAgent) (state : AgentState) :
    Except StepErr AgentState :=
  match alookup state "get_time_prompt" with
  | none => Except.error (StepErr.keyError "get_time_prompt")
  | some prompt =>
    match alookup state "timezone" with
    | none => Except.error (StepErr.keyError "timezone")
    | some tz =>
      match ta prompt ⟨tz⟩ with
      | Except.error e => Except.error (StepErr.agentError e)
      | Except.ok out =>
        let state := alinsert state "time_data" (Value.vDateTime out.time_data_output)
        let state := alinsert state "utc_offset" (Value.vStr out.utc_offset_output)
        Except.ok state

/-- Node `get_month_name`: ask the month agent about `state["time_data"]`
(rendered through an f-string), then write `month_name` and `month_emoji`. -/
def get_month_name_node (ma : MonthAgent) (state : AgentState) :
    Except StepErr AgentState :=
  match alookup state "time_data" with
  | none => Except.error (StepErr.keyError "time_data")
  | some td =>
    match ma ("What month is it according to this datetime object?: " ++ td.pyStr) with
    | Except.error e => Except.error (StepErr.agentError e)
    | Except.ok out =>
      let state := alinsert state "month_name" (Value.vStr out.month_name_output)
      let state := alinsert state "month_emoji" (Value.vStr out.month_name_output_emoji)
      Except.ok state

/-- Node `format`: build the `final_answer` dict from the collected slots
(`current_time` and `timezone` pass through f-strings; the others are the
raw stored values). -/
def format_response (state : AgentState) : Except StepErr AgentState :=
  match alookup state "time_data" with
  | none => Except.error (StepErr.keyError "time_data")
  | some td =>
    match alookup state "timezone" with
    | none => Except.error (StepErr.keyError "timezone")
    | some tz =>
      match alookup state "utc_offset" with
      | none => Except.error (StepErr.keyError "utc_offset")
      | some uo =>
        match alookup state "month_name" with
        | none => Except.error (StepErr.keyError "month_name")
        | some mn =>
          match alookup state "month_emoji" with
          | none => Except.error (StepErr.keyError "month_emoji")
          | some me =>
            Except.ok (alinsert state "final_answer" (Value.vDict
              [("current_time", Value.vStr td.pyStr),
               ("timezone", Value.vStr tz.pyStr),
               ("utc_offset", uo),
               ("month_name", mn),
               ("month_emoji", me)]))

/-- Node `is_AM`: `state["final_answer"]["AM"] = True;
state["final_answer"]["PM"] = False`.  KeyError when `final_answer` is
absent; TypeError when it is not a dict (e.g. `None`). -/
def add_AM (state : AgentState) : Except StepErr AgentState :=
  match alookup state "final_answer" with
  | none => Except.error (StepErr.keyError "final_answer")
  | some (Value.vDict d) =>
    let d := alinsert d "AM" (Value.vBool true)
    let d := alinsert d "PM" (Value.vBool false)
    Except.ok (alinsert state "final_answer" (Value.vDict d))
  | some _ => Except.error (StepErr.typeError "object does not support item assignment")

/-- Node `is_PM`: `state["final_answer"]["AM"] = False;
state["final_answer"]["PM"] = True`. -/
def add_PM (state : AgentState) : Except StepErr AgentState :=
  match alookup state "final_answer" with
  | none => Except.error (StepErr.keyError "final_answer")
  | some (Value.vDict d) =>
    let d := alinsert d "AM" (Value.vBool false)
    let d := alinsert d "PM" (Value.vBool true)
    Except.ok (alinsert state "final_answer" (Value.vDict d))
  | some _ => Except.error (StepErr.typeError "object does not support item assignment")

/-- The branch decision: look at `state["time_data"].hour` and route to
`"is_AM"` when it is strictly below 12, else `"is_PM"`.  AttributeError
when `time_data` is not a datetime (e.g. absentmindedly `None`). -/
def is_AM_or_PM (state : AgentState) : Except StepErr String :=
  match alookup state "time_data" with
  | none => Except.error (StepErr.keyError "time_data")
  | some (Value.vDateTime dt) =>
    Except.ok (if dt.hour < 12 then "is_AM" else "is_PM")
  | some _ => Except.error (StepErr.attributeError "object has no attribute hour")

/-- Reserved LangGraph entry node name (`START`). -/
def STARTNODE : String := "__start__"

/-- Reserved LangGraph terminal node name (`END`). -/
def ENDNODE : String := "__end__"

/-- A built `StateGraph`: registered nodes, unconditional edges, and
conditional edges (source, decision function, declared label list — in
`add_conditional_edges(src, fn, [labels])` each label names its destination
node). -/
structure Graph where
  nodes : List (String × (AgentState → Except StepErr AgentState))
  edges : List (String × String)
  branches : List (String × ((AgentState → Except StepErr String) × List String))

/-- Outcome of one `app.invoke` run. -/
inductive RunResult : Type where
  | completed (final : AgentState)
  | failed (stepName : String)
  | branchFailed (stepName : String)
  | configError (msg : String)

/-- The executor loop: execute the current node, record it in the trace,
then follow the unconditional edge of the node or evaluate its branch decision,
until `END` is reached, a node or decision raises, or the recursion limit
is exhausted.  Fuel is a list of units so one unit is consumed per node. -/
def runFrom (g : Graph) : List Unit → String → AgentState → List String →
    RunResult × List String
  | [], _, _, tr => (RunResult.configError "recursion limit reached", tr)
  | _ :: gas, cur, st, tr =>
    if cur = ENDNODE then (RunResult.completed st, tr)
    else
      match alookup g.nodes cur with
      | none => (RunResult.configError ("unknown node " ++ cur), tr)
      | some f =>
        match f st with
        | Except.error _ => (RunResult.failed cur, tr ++ [cur])
        | Except.ok st' =>
          match alookup g.edges cur with
          | some nxt => runFrom g gas nxt st' (tr ++ [cur])
          | none =>
            match alookup g.branches cur with
            | none => (RunResult.configError ("dead end at " ++ cur), tr ++ [cur])
            | some (dec, labels) =>
              match dec st' with
              | Except.error _ => (RunResult.branchFailed cur, tr ++ [cur])
              | Except.ok lab =>
                if lab ∈ labels then runFrom g gas lab st' (tr ++ [cur])
                else (RunResult.configError ("unmapped label " ++ lab), tr ++ [cur])

/-- Default LangGraph recursion limit (25 supersteps). -/
def recursionLimit : List Unit :=
  [(), (), (), (), (), (), (), (), (), (), (), (), (),
   (), (), (), (), (), (), (), (), (), (), (), ()]

/-- Invocation `app.invoke(initial)`: start from the successor of `START`
with an empty trace. -/
def app_invoke (g : Graph) (initial : AgentState) : RunResult × List String :=
  match alookup g.edges STARTNODE with
  | some first => runFrom g recursionLimit first initial []
  | none => (RunResult.configError "no entry edge", [])

/-- The graph built in `main()`: five nodes, the linear chain
`START → get_time → get_month_name → format`, the conditional edges
`format → {is_AM, is_PM}` decided by `is_AM_or_PM`, and `is_AM → END`,
`is_PM → END`. -/
def workflow (ta : TimeAgent) (ma : MonthAgent) : Graph where
  nodes :=
    [("get_time", get_time_node ta),
     ("get_month_name", get_month_name_node ma),
     ("format", format_response),
     ("is_AM", add_AM),
     ("is_PM", add_PM)]
  edges :=
    [(STARTNODE, "get_time"),
     ("get_time", "get_month_name"),
     ("get_month_name", "format"),
     ("is_AM", ENDNODE),
     ("is_PM", ENDNODE)]
  branches :=
    [("format", (is_AM_or_PM, ["is_AM", "is_PM"]))]

/-- The initial state passed to `app.invoke` in `main()`. -/
def mainConfig : AgentState :=
  [("get_time_prompt", Value.vStr "What is the current time?"),
   ("timezone", Value.vStr "America/New_York")]

/-- A stub time agent that always reports the given datetime and offset. -/
def stubTimeAgent (dt : DateTime) (uo : String) : TimeAgent :=
  fun _ _ => Except.ok ⟨dt, uo⟩

/-- A stub month agent that always reports the given name and emoji. -/
def stubMonthAgent (mn me : String) : MonthAgent :=
  fun _ => Except.ok ⟨mn, me⟩

/-- A time agent whose run always raises (scenario C: the external call
fails). -/
def failingTimeAgent (e : String) : TimeAgent :=
  fun _ _ => Except.error e

/-- Read key `k` of the `final_answer` dict of a state, when present. -/
def faLookup (s : AgentState) (k : String) : Option Value :=
  match alookup s "final_answer" with
  | some (Value.vDict d) => alookup d k
  | _ => none

/-- State after a successful `get_time` node on `mainConfig` when the time
agent reports datetime `dt` and UTC offset `uo`. -/
def timeState (dt : DateTime) (uo : String) : AgentState :=
  alinsert (alinsert mainConfig "time_data" (Value.vDateTime dt))
    "utc_offset" (Value.vStr uo)

/-- State after the `get_month_name` node additionally reports month name
`mn` and emoji `me`. -/
def monthState (dt : DateTime) (uo mn me : String) : AgentState :=
  alinsert (alinsert (timeState dt uo) "month_name" (Value.vStr mn))
    "month_emoji" (Value.vStr me)

/-- The `final_answer` dict built by the `format` node from those slots. -/
def finalDict (dt : DateTime) (uo mn me : String) : List (String × Value) :=
  [("current_time", Value.vStr ((Value.vDateTime dt).pyStr)),
   ("timezone", Value.vStr ((Value.vStr "America/New_York").pyStr)),
   ("utc_offset", Value.vStr uo),
   ("month_name", Value.vStr mn),
   ("month_emoji", Value.vStr me)]

/-- State after the `format` node. -/
def formatState (dt : DateTime) (uo mn me : String) : AgentState :=
  alinsert (monthState dt uo mn me) "final_answer" (Value.vDict (finalDict dt uo mn me))

/-- Final state after the `is_AM` node enriches `final_answer`. -/
def amState (dt : DateTime) (uo mn me : String) : AgentState :=
  alinsert (formatState dt uo mn me) "final_answer" (Value.vDict
    (alinsert (alinsert (finalDict dt uo mn me) "AM" (Value.vBool true))
      "PM" (Value.vBool false)))

/-- Final state after the `is_PM` node enriches `final_answer`. -/
def pmState (dt : DateTime) (uo mn me : String) : AgentState :=
  alinsert (formatState dt uo mn me) "final_answer" (Value.vDict
    (alinsert (alinsert (finalDict dt uo mn me) "AM" (Value.vBool false))
      "PM" (Value.vBool true)))

/-- A fetch oracle returning HTTP 500 with a well-formed JSON body that
nevertheless carries a datetime field. -/
def fetch500WithDatetime : String → NetResult :=
  fun _ => NetResult.response 500 (BodyResult.json (Json.jobj
    [("datetime", Json.jstr "2025-06-15T09:00:00.000000-04:00")]))

/-- A fetch oracle that raises a network error. -/
def fetchNetDown : String → NetResult :=
  fun _ => NetResult.netError "connection refused"

/-- A fetch oracle returning a body that json.loads cannot parse. -/
def fetchMalformed : String → NetResult :=
  fun _ => NetResult.response 200 BodyResult.malformed

/-- A fetch oracle returning a JSON object without a datetime field. -/
def fetchNoDatetimeField : String → NetResult :=
  fun _ => NetResult.response 200 (BodyResult.json (Json.jobj
    [("error", Json.jstr "unknown timezone")]))

/-- Lookup after dict assignment: the assigned key reads back the new value,
every other key is unchanged. -/
theorem alookup_alinsert {α : Type} (d : List (String × α)) (k k' : String) (v : α) :
    alookup (alinsert d k v) k' = if k = k' then some v else alookup d k' := by
  induction d with
  | nil => simp [alinsert, alookup]
  | cons hd tl ih =>
    obtain ⟨k0, v0⟩ := hd
    by_cases h0 : k0 = k
    · subst h0
      simp only [alinsert, if_pos rfl]
      by_cases h1 : k0 = k' <;> simp [alookup, h1]
    · simp only [alinsert, if_neg h0]
      by_cases h1 : k0 = k'
      · subst h1
        simp only [alookup, if_pos rfl]
        rw [if_neg (fun hh : k = k0 => h0 hh.symm)]
        simp [alookup]
      · simp only [alookup, if_neg h1, ih]

/-- Assignment adds at most the assigned key to the key set. -/
theorem mem_dkeys_alinsert {α : Type} (d : List (String × α)) (k k' : String) (v : α)
    (h : k' ∈ dkeys (alinsert d k v)) : k' = k ∨ k' ∈ dkeys d := by
  induction d with
  | nil =>
    simp only [alinsert, dkeys, List.map_cons, List.map_nil, List.mem_singleton] at h
    exact Or.inl h
  | cons hd tl ih =>
    obtain ⟨k0, v0⟩ := hd
    simp only [alinsert] at h
    by_cases h0 : k0 = k
    · rw [if_pos h0] at h
      simp only [dkeys, List.map_cons, List.mem_cons] at h ⊢
      exact Or.inr h
    · rw [if_neg h0] at h
      simp only [dkeys, List.map_cons, List.mem_cons] at h ⊢
      rcases h with h | h
      · exact Or.inr (Or.inl h)
      · rcases ih h with h' | h'
        · exact Or.inl h'
        · exact Or.inr (Or.inr h')

/-- Reaching `END` completes the run with the current state and trace. -/
theorem runFrom_end (g : Graph) (gas : List Unit) (st : AgentState) (tr : List String) :
    runFrom g (() :: gas) ENDNODE st tr = (RunResult.completed st, tr) := by
  simp [runFrom]

/-- A node whose function raises makes the run fail with that node name;
nothing later executes. -/
theorem runFrom_fail (g : Graph) (gas : List Unit) (cur : String) (st : AgentState)
    (tr : List String) (f : AgentState → Except StepErr AgentState) (err : StepErr)
    (hcur : cur ≠ ENDNODE) (hf : alookup g.nodes cur = some f)
    (hst : f st = Except.error err) :
    runFrom g (() :: gas) cur st tr = (RunResult.failed cur, tr ++ [cur]) := by
  simp [runFrom, hcur, hf, hst]

/-- A successful node with an unconditional edge passes its output state to
the successor. -/
theorem runFrom_edge (g : Graph) (gas : List Unit) (cur nxt : String) (st st' : AgentState)
    (tr : List String) (f : AgentState → Except StepErr AgentState)
    (hcur : cur ≠ ENDNODE) (hf : alookup g.nodes cur = some f)
    (hst : f st = Except.ok st') (he : alookup g.edges cur = some nxt) :
    runFrom g (() :: gas) cur st tr = runFrom g gas nxt st' (tr ++ [cur]) := by
  simp [runFrom, hcur, hf, hst, he]

/-- A successful node with a branch whose decision returns a mapped label
passes the state to the node named by the label. -/
theorem runFrom_branch (g : Graph) (gas : List Unit) (cur lab : String) (st st' : AgentState)
    (tr : List String) (f : AgentState → Except StepErr AgentState)
    (dec : AgentState → Except StepErr String) (labels : List String)
    (hcur : cur ≠ ENDNODE) (hf : alookup g.nodes cur = some f)
    (hst : f st = Except.ok st') (he : alookup g.edges cur = none)
    (hb : alookup g.branches cur = some (dec, labels))
    (hdec : dec st' = Except.ok lab) (hmem : lab ∈ labels) :
    runFrom g (() :: gas) cur st tr = runFrom g gas lab st' (tr ++ [cur]) := by
  simp [runFrom, hcur, hf, hst, he, hb, hdec, hmem]

/-- A branch decision that raises aborts the run at the source node. -/
theorem runFrom_branchErr (g : Graph) (gas : List Unit) (cur : String) (st st' : AgentState)
    (tr : List String) (f : AgentState → Except StepErr AgentState)
    (dec : AgentState → Except StepErr String) (labels : List String) (err : StepErr)
    (hcur : cur ≠ ENDNODE) (hf : alookup g.nodes cur = some f)
    (hst : f st = Except.ok st') (he : alookup g.edges cur = none)
    (hb : alookup g.branches cur = some (dec, labels))
    (hdec : dec st' = Except.error err) :
    runFrom g (() :: gas) cur st tr = (RunResult.branchFailed cur, tr ++ [cur]) := by
  simp [runFrom, hcur, hf, hst, he, hb, hdec]

/-- The branch decision can only ever return the two declared labels. -/
theorem is_AM_or_PM_ok_cases (s : AgentState) (lab : String)
    (h : is_AM_or_PM s = Except.ok lab) : lab = "is_AM" ∨ lab = "is_PM" := by
  unfold is_AM_or_PM at h
  split at h
  · cases h
  · rename_i dt heq
    by_cases hlt : dt.hour < 12
    · simp only [if_pos hlt] at h
      cases h
      exact Or.inl rfl
    · simp only [if_neg hlt] at h
      cases h
      exact Or.inr rfl
  · cases h

/-- Inversion of a completed run of the compiled workflow: the three chain
nodes succeeded in order and then exactly one of `is_AM` or `is_PM` ran,
fixing the trace. -/
theorem run_completed_inv (ta : TimeAgent) (ma : MonthAgent) (s0 sf : AgentState)
    (t : List String)
    (hrun : app_invoke (workflow ta ma) s0 = (RunResult.completed sf, t)) :
    ∃ s1 s2 s3, get_time_node ta s0 = Except.ok s1 ∧
      get_month_name_node ma s1 = Except.ok s2 ∧
      format_response s2 = Except.ok s3 ∧
      ((is_AM_or_PM s3 = Except.ok "is_AM" ∧ add_AM s3 = Except.ok sf ∧
          t = ["get_time", "get_month_name", "format", "is_AM"]) ∨
       (is_AM_or_PM s3 = Except.ok "is_PM" ∧ add_PM s3 = Except.ok sf ∧
          t = ["get_time", "get_month_name", "format", "is_PM"])) := by
  simp only [app_invoke] at hrun
  have hedge : alookup (workflow ta ma).edges STARTNODE = some "get_time" := rfl
  rw [hedge] at hrun
  simp only [recursionLimit] at hrun
  cases h1 : get_time_node ta s0 with
  | error e =>
    rw [runFrom_fail (workflow ta ma) _ "get_time" s0 [] (get_time_node ta) e
      (by decide) rfl h1] at hrun
    cases hrun
  | ok s1 =>
    rw [runFrom_edge (workflow ta ma) _ "get_time" "get_month_name" s0 s1 []
      (get_time_node ta) (by decide) rfl h1 rfl] at hrun
    simp only [List.nil_append] at hrun
    cases h2 : get_month_name_node ma s1 with
    | error e =>
      rw [runFrom_fail (workflow ta ma) _ "get_month_name" s1 ["get_time"]
        (get_month_name_node ma) e (by decide) rfl h2] at hrun
      cases hrun
    | ok s2 =>
      rw [runFrom_edge (workflow ta ma) _ "get_month_name" "format" s1 s2 ["get_time"]
        (get_month_name_node ma) (by decide) rfl h2 rfl] at hrun
      simp only [List.cons_append, List.nil_append] at hrun
      cases h3 : format_response s2 with
      | error e =>
        rw [runFrom_fail (workflow ta ma) _ "format" s2 ["get_time", "get_month_name"]
          format_response e (by decide) rfl h3] at hrun
        cases hrun
      | ok s3 =>
        cases h4 : is_AM_or_PM s3 with
        | error e =>
          rw [runFrom_branchErr (workflow ta ma) _ "format" s2 s3
            ["get_time", "get_month_name"] format_response is_AM_or_PM
            ["is_AM", "is_PM"] e (by decide) rfl h3 rfl rfl h4] at hrun
          cases hrun
        | ok lab =>
          rcases is_AM_or_PM_ok_cases s3 lab h4 with hl | hl
          · subst hl
            rw [runFrom_branch (workflow ta ma) _ "format" "is_AM" s2 s3
              ["get_time", "get_month_name"] format_response is_AM_or_PM
              ["is_AM", "is_PM"] (by decide) rfl h3 rfl rfl h4 (by decide)] at hrun
            simp only [List.cons_append, List.nil_append] at hrun
            cases h5 : add_AM s3 with
            | error e =>
              rw [runFrom_fail (workflow ta ma) _ "is_AM" s3
                ["get_time", "get_month_name", "format"] add_AM e
                (by decide) rfl h5] at hrun
              cases hrun
            | ok s4 =>
              rw [runFrom_edge (workflow ta ma) _ "is_AM" ENDNODE s3 s4
                ["get_time", "get_month_name", "format"] add_AM
                (by decide) rfl h5 rfl] at hrun
              rw [runFrom_end] at hrun
              simp only [List.cons_append, List.nil_append, Prod.mk.injEq,
                RunResult.completed.injEq] at hrun
              obtain ⟨hsf, ht⟩ := hrun
              subst hsf
              exact ⟨s1, s2, s3, rfl, h2, h3, Or.inl ⟨h4, h5, ht.symm⟩⟩
          · subst hl
            rw [runFrom_branch (workflow ta ma) _ "format" "is_PM" s2 s3
              ["get_time", "get_month_name"] format_response is_AM_or_PM
              ["is_AM", "is_PM"] (by decide) rfl h3 rfl rfl h4 (by decide)] at hrun
            simp only [List.cons_append, List.nil_append] at hrun
            cases h5 : add_PM s3 with
            | error e =>
              rw [runFrom_fail (workflow ta ma) _ "is_PM" s3
                ["get_time", "get_month_name", "format"] add_PM e
                (by decide) rfl h5] at hrun
              cases hrun
            | ok s4 =>
              rw [runFrom_edge (workflow ta ma) _ "is_PM" ENDNODE s3 s4
                ["get_time", "get_month_name", "format"] add_PM
                (by decide) rfl h5 rfl] at hrun
              rw [runFrom_end] at hrun
              simp only [List.cons_append, List.nil_append, Prod.mk.injEq,
                RunResult.completed.injEq] at hrun
              obtain ⟨hsf, ht⟩ := hrun
              subst hsf
              exact ⟨s1, s2, s3, rfl, h2, h3, Or.inr ⟨h4, h5, ht.symm⟩⟩

/-- Forward execution of the workflow when the branch picks `is_AM`. -/
theorem run_forward_AM (ta : TimeAgent) (ma : MonthAgent) (s0 s1 s2 s3 s4 : AgentState)
    (h1 : get_time_node ta s0 = Except.ok s1)
    (h2 : get_month_name_node ma s1 = Except.ok s2)
    (h3 : format_response s2 = Except.ok s3)
    (h4 : is_AM_or_PM s3 = Except.ok "is_AM")
    (h5 : add_AM s3 = Except.ok s4) :
    app_invoke (workflow ta ma) s0 =
      (RunResult.completed s4, ["get_time", "get_month_name", "format", "is_AM"]) := by
  show runFrom (workflow ta ma) recursionLimit "get_time" s0 [] = _
  simp only [recursionLimit]
  rw [runFrom_edge (workflow ta ma) _ "get_time" "get_month_name" s0 s1 []
    (get_time_node ta) (by decide) rfl h1 rfl]
  rw [runFrom_edge (workflow ta ma) _ "get_month_name" "format" s1 s2 _
    (get_month_name_node ma) (by decide) rfl h2 rfl]
  rw [runFrom_branch (workflow ta ma) _ "format" "is_AM" s2 s3 _
    format_response is_AM_or_PM ["is_AM", "is_PM"] (by decide) rfl h3 rfl rfl h4
    (by decide)]
  rw [runFrom_edge (workflow ta ma) _ "is_AM" ENDNODE s3 s4 _ add_AM
    (by decide) rfl h5 rfl]
  rw [runFrom_end]
  simp

/-- Forward execution of the workflow when the branch picks `is_PM`. -/
theorem run_forward_PM (ta : TimeAgent) (ma : MonthAgent) (s0 s1 s2 s3 s4 : AgentState)
    (h1 : get_time_node ta s0 = Except.ok s1)
    (h2 : get_month_name_node ma s1 = Except.ok s2)
    (h3 : format_response s2 = Except.ok s3)
    (h4 : is_AM_or_PM s3 = Except.ok "is_PM")
    (h5 : add_PM s3 = Except.ok s4) :
    app_invoke (workflow ta ma) s0 =
      (RunResult.completed s4, ["get_time", "get_month_name", "format", "is_PM"]) := by
  show runFrom (workflow ta ma) recursionLimit "get_time" s0 [] = _
  simp only [recursionLimit]
  rw [runFrom_edge (workflow ta ma) _ "get_time" "get_month_name" s0 s1 []
    (get_time_node ta) (by decide) rfl h1 rfl]
  rw [runFrom_edge (workflow ta ma) _ "get_month_name" "format" s1 s2 _
    (get_month_name_node ma) (by decide) rfl h2 rfl]
  rw [runFrom_branch (workflow ta ma) _ "format" "is_PM" s2 s3 _
    format_response is_AM_or_PM ["is_AM", "is_PM"] (by decide) rfl h3 rfl rfl h4
    (by decide)]
  rw [runFrom_edge (workflow ta ma) _ "is_PM" ENDNODE s3 s4 _ add_PM
    (by decide) rfl h5 rfl]
  rw [runFrom_end]
  simp

/-- Forward execution when the very first node raises: the run fails there
and the trace contains only `get_time`. -/
theorem run_forward_fail_get_time (ta : TimeAgent) (ma : MonthAgent) (s0 : AgentState)
    (e : StepErr) (h1 : get_time_node ta s0 = Except.error e) :
    app_invoke (workflow ta ma) s0 = (RunResult.failed "get_time", ["get_time"]) := by
  show runFrom (workflow ta ma) recursionLimit "get_time" s0 [] = _
  simp only [recursionLimit]
  rw [runFrom_fail (workflow ta ma) _ "get_time" s0 [] (get_time_node ta) e
    (by decide) rfl h1]
  simp

/-- With an always-raising time agent the `get_time` node always raises
(either a KeyError on the seed state or the agent error itself). -/
theorem failingTimeAgent_node_err (e : String) (s : AgentState) :
    ∃ err, get_time_node (failingTimeAgent e) s = Except.error err := by
  unfold get_time_node
  cases h1 : alookup s "get_time_prompt" with
  | none => exact ⟨StepErr.keyError "get_time_prompt", rfl⟩
  | some prompt =>
    cases h2 : alookup s "timezone" with
    | none => exact ⟨StepErr.keyError "timezone", rfl⟩
    | some tz => exact ⟨StepErr.agentError e, rfl⟩

/-- A successful `get_time` node writes exactly `time_data` and `utc_offset`
from some agent output. -/
theorem get_time_node_ok_shape (ta : TimeAgent) (s s' : AgentState)
    (h : get_time_node ta s = Except.ok s') :
    ∃ out : TimeOutput, s' =
      alinsert (alinsert s "time_data" (Value.vDateTime out.time_data_output))
        "utc_offset" (Value.vStr out.utc_offset_output) := by
  unfold get_time_node at h
  split at h
  · cases h
  · split at h
    · cases h
    · split at h
      · cases h
      · rename_i out heq
        cases h
        exact ⟨out, rfl⟩

/-- A successful `get_month_name` node writes exactly `month_name` and
`month_emoji` from some agent output. -/
theorem get_month_name_node_ok_shape (ma : MonthAgent) (s s' : AgentState)
    (h : get_month_name_node ma s = Except.ok s') :
    ∃ out : MonthNameOutput, s' =
      alinsert (alinsert s "month_name" (Value.vStr out.month_name_output))
        "month_emoji" (Value.vStr out.month_name_output_emoji) := by
  unfold get_month_name_node at h
  split at h
  · cases h
  · split at h
    · cases h
    · rename_i out heq
      cases h
      exact ⟨out, rfl⟩

/-- A successful `format` node writes exactly `final_answer`, built from the
five collected slots. -/
theorem format_response_ok_shape (s s' : AgentState)
    (h : format_response s = Except.ok s') :
    ∃ (td tz uo mn me : Value), alookup s "time_data" = some td ∧
      s' = alinsert s "final_answer" (Value.vDict
        [("current_time", Value.vStr td.pyStr),
         ("timezone", Value.vStr tz.pyStr),
         ("utc_offset", uo),
         ("month_name", mn),
         ("month_emoji", me)]) := by
  unfold format_response at h
  split at h
  · cases h
  · rename_i td htd
    split at h
    · cases h
    · split at h
      · cases h
      · split at h
        · cases h
        · split at h
          · cases h
          · rename_i me heq
            cases h
            exact ⟨td, _, _, _, me, htd, rfl⟩

/-- A successful `is_AM` node rewrites `final_answer` with AM set to True
and PM set to False. -/
theorem add_AM_ok_shape (s s' : AgentState) (h : add_AM s = Except.ok s') :
    ∃ d, alookup s "final_answer" = some (Value.vDict d) ∧
      s' = alinsert s "final_answer" (Value.vDict
        (alinsert (alinsert d "AM" (Value.vBool true)) "PM" (Value.vBool false))) := by
  unfold add_AM at h
  cases hfa : alookup s "final_answer" with
  | none => rw [hfa] at h; cases h
  | some v =>
    rw [hfa] at h
    cases v with
    | vDict d =>
      cases h
      exact ⟨d, rfl, rfl⟩
    | vStr a => cases h
    | vDateTime a => cases h
    | vBool a => cases h
    | vNone => cases h

/-- A successful `is_PM` node rewrites `final_answer` with AM set to False
and PM set to True. -/
theorem add_PM_ok_shape (s s' : AgentState) (h : add_PM s = Except.ok s') :
    ∃ d, alookup s "final_answer" = some (Value.vDict d) ∧
      s' = alinsert s "final_answer" (Value.vDict
        (alinsert (alinsert d "AM" (Value.vBool false)) "PM" (Value.vBool true))) := by
  unfold add_PM at h
  cases hfa : alookup s "final_answer" with
  | none => rw [hfa] at h; cases h
  | some v =>
    rw [hfa] at h
    cases v with
    | vDict d =>
      cases h
      exact ⟨d, rfl, rfl⟩
    | vStr a => cases h
    | vDateTime a => cases h
    | vBool a => cases h
    | vNone => cases h

/-- Frame condition of `get_time`: all slots other than `time_data` and
`utc_offset` are untouched. -/
theorem get_time_node_frame (ta : TimeAgent) (s s' : AgentState)
    (h : get_time_node ta s = Except.ok s') (k : String)
    (hk1 : k ≠ "time_data") (hk2 : k ≠ "utc_offset") :
    alookup s' k = alookup s k := by
  obtain ⟨out, rfl⟩ := get_time_node_ok_shape ta s s' h
  rw [alookup_alinsert, if_neg (fun hh : "utc_offset" = k => hk2 hh.symm),
      alookup_alinsert, if_neg (fun hh : "time_data" = k => hk1 hh.symm)]

/-- Frame condition of `get_month_name`: all slots other than `month_name`
and `month_emoji` are untouched. -/
theorem get_month_name_node_frame (ma : MonthAgent) (s s' : AgentState)
    (h : get_month_name_node ma s = Except.ok s') (k : String)
    (hk1 : k ≠ "month_name") (hk2 : k ≠ "month_emoji") :
    alookup s' k = alookup s k := by
  obtain ⟨out, rfl⟩ := get_month_name_node_ok_shape ma s s' h
  rw [alookup_alinsert, if_neg (fun hh : "month_emoji" = k => hk2 hh.symm),
      alookup_alinsert, if_neg (fun hh : "month_name" = k => hk1 hh.symm)]

/-- Frame condition of `format`: all slots other than `final_answer` are
untouched. -/
theorem format_response_frame (s s' : AgentState)
    (h : format_response s = Except.ok s') (k : String)
    (hk : k ≠ "final_answer") :
    alookup s' k = alookup s k := by
  obtain ⟨td, tz, uo, mn, me, htd, rfl⟩ := format_response_ok_shape s s' h
  rw [alookup_alinsert, if_neg (fun hh : "final_answer" = k => hk hh.symm)]

/-- Frame condition of `is_AM`: all slots other than `final_answer` are
untouched. -/
theorem add_AM_frame (s s' : AgentState) (h : add_AM s = Except.ok s') (k : String)
    (hk : k ≠ "final_answer") :
    alookup s' k = alookup s k := by
  obtain ⟨d, hd, rfl⟩ := add_AM_ok_shape s s' h
  rw [alookup_alinsert, if_neg (fun hh : "final_answer" = k => hk hh.symm)]

/-- Frame condition of `is_PM`: all slots other than `final_answer` are
untouched. -/
theorem add_PM_frame (s s' : AgentState) (h : add_PM s = Except.ok s') (k : String)
    (hk : k ≠ "final_answer") :
    alookup s' k = alookup s k := by
  obtain ⟨d, hd, rfl⟩ := add_PM_ok_shape s s' h
  rw [alookup_alinsert, if_neg (fun hh : "final_answer" = k => hk hh.symm)]

/-- After a successful `get_time` node the `time_data` slot holds a datetime. -/
theorem get_time_node_sets_time_data (ta : TimeAgent) (s s' : AgentState)
    (h : get_time_node ta s = Except.ok s') :
    ∃ dt, alookup s' "time_data" = some (Value.vDateTime dt) := by
  obtain ⟨out, rfl⟩ := get_time_node_ok_shape ta s s' h
  refine ⟨out.time_data_output, ?_⟩
  rw [alookup_alinsert, if_neg (by decide), alookup_alinsert, if_pos rfl]

/-- Every state reaching the branch point along the chain has a datetime in
`time_data`. -/
theorem reachable_branch_time_data (ta : TimeAgent) (ma : MonthAgent)
    (s0 s1 s2 s3 : AgentState)
    (h1 : get_time_node ta s0 = Except.ok s1)
    (h2 : get_month_name_node ma s1 = Except.ok s2)
    (h3 : format_response s2 = Except.ok s3) :
    ∃ dt, alookup s3 "time_data" = some (Value.vDateTime dt) := by
  obtain ⟨dt, hdt⟩ := get_time_node_sets_time_data ta s0 s1 h1
  refine ⟨dt, ?_⟩
  rw [format_response_frame s2 s3 h3 "time_data" (by decide),
      get_month_name_node_frame ma s1 s2 h2 "time_data" (by decide) (by decide), hdt]

/-- Keys written by `get_time` are only `time_data` and `utc_offset`. -/
theorem get_time_node_keys (ta : TimeAgent) (s s' : AgentState)
    (h : get_time_node ta s = Except.ok s') (k : String) (hk : k ∈ dkeys s') :
    k = "time_data" ∨ k = "utc_offset" ∨ k ∈ dkeys s := by
  obtain ⟨out, rfl⟩ := get_time_node_ok_shape ta s s' h
  rcases mem_dkeys_alinsert _ _ _ _ hk with h' | h'
  · exact Or.inr (Or.inl h')
  · rcases mem_dkeys_alinsert _ _ _ _ h' with h'' | h''
    · exact Or.inl h''
    · exact Or.inr (Or.inr h'')

/-- Keys written by `get_month_name` are only `month_name` and `month_emoji`. -/
theorem get_month_name_node_keys (ma : MonthAgent) (s s' : AgentState)
    (h : get_month_name_node ma s = Except.ok s') (k : String) (hk : k ∈ dkeys s') :
    k = "month_name" ∨ k = "month_emoji" ∨ k ∈ dkeys s := by
  obtain ⟨out, rfl⟩ := get_month_name_node_ok_shape ma s s' h
  rcases mem_dkeys_alinsert _ _ _ _ hk with h' | h'
  · exact Or.inr (Or.inl h')
  · rcases mem_dkeys_alinsert _ _ _ _ h' with h'' | h''
    · exact Or.inl h''
    · exact Or.inr (Or.inr h'')

/-- Keys written by `format` are only `final_answer`. -/
theorem format_response_keys (s s' : AgentState)
    (h : format_response s = Except.ok s') (k : String) (hk : k ∈ dkeys s') :
    k = "final_answer" ∨ k ∈ dkeys s := by
  obtain ⟨td, tz, uo, mn, me, htd, rfl⟩ := format_response_ok_shape s s' h
  exact mem_dkeys_alinsert _ _ _ _ hk

/-- Keys written by `is_AM` are only `final_answer`. -/
theorem add_AM_keys (s s' : AgentState)
    (h : add_AM s = Except.ok s') (k : String) (hk : k ∈ dkeys s') :
    k = "final_answer" ∨ k ∈ dkeys s := by
  obtain ⟨d, hd, rfl⟩ := add_AM_ok_shape s s' h
  exact mem_dkeys_alinsert _ _ _ _ hk

/-- Keys written by `is_PM` are only `final_answer`. -/
theorem add_PM_keys (s s' : AgentState)
    (h : add_PM s = Except.ok s') (k : String) (hk : k ∈ dkeys s') :
    k = "final_answer" ∨ k ∈ dkeys s := by
  obtain ⟨d, hd, rfl⟩ := add_PM_ok_shape s s' h
  exact mem_dkeys_alinsert _ _ _ _ hk

/-- A successful `format` node leaves a dict in `final_answer`. -/
theorem format_response_sets_final_answer (s s' : AgentState)
    (h : format_response s = Except.ok s') :
    ∃ d, alookup s' "final_answer" = some (Value.vDict d) := by
  obtain ⟨td, tz, uo, mn, me, htd, rfl⟩ := format_response_ok_shape s s' h
  exact ⟨_, by rw [alookup_alinsert, if_pos rfl]⟩

/-- When `final_answer` holds a dict, `is_AM` succeeds. -/
theorem add_AM_ok_of_dict (s : AgentState) (d : List (String × Value))
    (hd : alookup s "final_answer" = some (Value.vDict d)) :
    ∃ s', add_AM s = Except.ok s' := by
  unfold add_AM
  rw [hd]
  exact ⟨_, rfl⟩

/-- When `final_answer` holds a dict, `is_PM` succeeds. -/
theorem add_PM_ok_of_dict (s : AgentState) (d : List (String × Value))
    (hd : alookup s "final_answer" = some (Value.vDict d)) :
    ∃ s', add_PM s = Except.ok s' := by
  unfold add_PM
  rw [hd]
  exact ⟨_, rfl⟩

/-- When `final_answer` is absent, `is_AM` raises KeyError. -/
theorem add_AM_keyError (s : AgentState) (h : alookup s "final_answer" = none) :
    add_AM s = Except.error (StepErr.keyError "final_answer") := by
  unfold add_AM
  rw [h]

/-- When `final_answer` is absent, `is_PM` raises KeyError. -/
theorem add_PM_keyError (s : AgentState) (h : alookup s "final_answer" = none) :
    add_PM s = Except.error (StepErr.keyError "final_answer") := by
  unfold add_PM
  rw [h]

/-- When `final_answer` is None, item assignment in `is_AM` raises TypeError. -/
theorem add_AM_typeError (s : AgentState)
    (h : alookup s "final_answer" = some Value.vNone) :
    add_AM s = Except.error
      (StepErr.typeError "object does not support item assignment") := by
  unfold add_AM
  rw [h]

/-- When `final_answer` is None, item assignment in `is_PM` raises TypeError. -/
theorem add_PM_typeError (s : AgentState)
    (h : alookup s "final_answer" = some Value.vNone) :
    add_PM s = Except.error
      (StepErr.typeError "object does not support item assignment") := by
  unfold add_PM
  rw [h]

/-- After a successful `is_AM` node, `final_answer` maps AM to True and PM
to False. -/
theorem add_AM_post (s s' : AgentState) (h : add_AM s = Except.ok s') :
    faLookup s' "AM" = some (Value.vBool true) ∧
    faLookup s' "PM" = some (Value.vBool false) := by
  obtain ⟨d, hd, rfl⟩ := add_AM_ok_shape s s' h
  unfold faLookup
  rw [alookup_alinsert, if_pos rfl]
  constructor
  · show alookup (alinsert (alinsert d "AM" (Value.vBool true)) "PM"
      (Value.vBool false)) "AM" = _
    rw [alookup_alinsert, if_neg (by decide), alookup_alinsert, if_pos rfl]
  · show alookup (alinsert (alinsert d "AM" (Value.vBool true)) "PM"
      (Value.vBool false)) "PM" = _
    rw [alookup_alinsert, if_pos rfl]

/-- After a successful `is_PM` node, `final_answer` maps AM to False and PM
to True. -/
theorem add_PM_post (s s' : AgentState) (h : add_PM s = Except.ok s') :
    faLookup s' "AM" = some (Value.vBool false) ∧
    faLookup s' "PM" = some (Value.vBool true) := by
  obtain ⟨d, hd, rfl⟩ := add_PM_ok_shape s s' h
  unfold faLookup
  rw [alookup_alinsert, if_pos rfl]
  constructor
  · show alookup (alinsert (alinsert d "AM" (Value.vBool false)) "PM"
      (Value.vBool true)) "AM" = _
    rw [alookup_alinsert, if_neg (by decide), alookup_alinsert, if_pos rfl]
  · show alookup (alinsert (alinsert d "AM" (Value.vBool false)) "PM"
      (Value.vBool true)) "PM" = _
    rw [alookup_alinsert, if_pos rfl]

/-- C1: the comparison `hour < 12` is strict.  On any state whose `time_data`
hour is strictly below 12 the branch decision returns `is_AM`, and on 12 or
above it returns `is_PM`; correspondingly, the end-to-end run with stubbed
agents routes through `is_AM` and ends with AM True, PM False when the hour
is below 12, and routes through `is_PM` ending with AM False, PM True when
the hour is 12 (the boundary) or more. -/
theorem am_pm_boundary (dt : DateTime) (uo mn me : String) :
    (∀ s : AgentState, alookup s "time_data" = some (Value.vDateTime dt) →
      (dt.hour < 12 → is_AM_or_PM s = Except.ok "is_AM") ∧
      (12 ≤ dt.hour → is_AM_or_PM s = Except.ok "is_PM")) ∧
    (dt.hour < 12 →
      app_invoke (workflow (stubTimeAgent dt uo) (stubMonthAgent mn me)) mainConfig =
        (RunResult.completed (amState dt uo mn me),
         ["get_time", "get_month_name", "format", "is_AM"]) ∧
      faLookup (amState dt uo mn me) "AM" = some (Value.vBool true) ∧
      faLookup (amState dt uo mn me) "PM" = some (Value.vBool false)) ∧
    (12 ≤ dt.hour →
      app_invoke (workflow (stubTimeAgent dt uo) (stubMonthAgent mn me)) mainConfig =
        (RunResult.completed (pmState dt uo mn me),
         ["get_time", "get_month_name", "format", "is_PM"]) ∧
      faLookup (pmState dt uo mn me) "AM" = some (Value.vBool false) ∧
      faLookup (pmState dt uo mn me) "PM" = some (Value.vBool true)) := by
  refine ⟨?_, ?_, ?_⟩
  · intro s hs
    constructor <;> intro hh <;> unfold is_AM_or_PM <;> rw [hs]
    · show Except.ok (if dt.hour < 12 then "is_AM" else "is_PM") = Except.ok "is_AM"
      rw [if_pos hh]
    · show Except.ok (if dt.hour < 12 then "is_AM" else "is_PM") = Except.ok "is_PM"
      rw [if_neg (Nat.not_lt.mpr hh)]
  · intro hlt
    refine ⟨run_forward_AM (stubTimeAgent dt uo) (stubMonthAgent mn me) mainConfig
      (timeState dt uo) (monthState dt uo mn me) (formatState dt uo mn me)
      (amState dt uo mn me) rfl rfl rfl ?_ rfl, rfl, rfl⟩
    show Except.ok (if dt.hour < 12 then "is_AM" else "is_PM") = Except.ok "is_AM"
    rw [if_pos hlt]
  · intro hge
    refine ⟨run_forward_PM (stubTimeAgent dt uo) (stubMonthAgent mn me) mainConfig
      (timeState dt uo) (monthState dt uo mn me) (formatState dt uo mn me)
      (pmState dt uo mn me) rfl rfl rfl ?_ rfl, rfl, rfl⟩
    show Except.ok (if dt.hour < 12 then "is_AM" else "is_PM") = Except.ok "is_PM"
    rw [if_neg (Nat.not_lt.mpr hge)]

/-- C1 witness: hour 9 routes to `is_AM` with AM True, PM False; hour 12
exactly routes to `is_PM` with AM False, PM True. -/
theorem am_pm_boundary_witness :
    is_AM_or_PM [("time_data", Value.vDateTime ⟨2025, 6, 15, 9, 0, 0⟩)] =
      Except.ok "is_AM" ∧
    (app_invoke (workflow (stubTimeAgent ⟨2025, 6, 15, 9, 0, 0⟩ "-04:00")
        (stubMonthAgent "June" "sun")) mainConfig =
      (RunResult.completed (amState ⟨2025, 6, 15, 9, 0, 0⟩ "-04:00" "June" "sun"),
       ["get_time", "get_month_name", "format", "is_AM"]) ∧
      faLookup (amState ⟨2025, 6, 15, 9, 0, 0⟩ "-04:00" "June" "sun") "AM" =
        some (Value.vBool true) ∧
      faLookup (amState ⟨2025, 6, 15, 9, 0, 0⟩ "-04:00" "June" "sun") "PM" =
        some (Value.vBool false)) ∧
    (app_invoke (workflow (stubTimeAgent ⟨2025, 6, 15, 12, 0, 0⟩ "-04:00")
        (stubMonthAgent "June" "sun")) mainConfig =
      (RunResult.completed (pmState ⟨2025, 6, 15, 12, 0, 0⟩ "-04:00" "June" "sun"),
       ["get_time", "get_month_name", "format", "is_PM"]) ∧
      faLookup (pmState ⟨2025, 6, 15, 12, 0, 0⟩ "-04:00" "June" "sun") "AM" =
        some (Value.vBool false) ∧
      faLookup (pmState ⟨2025, 6, 15, 12, 0, 0⟩ "-04:00" "June" "sun") "PM" =
        some (Value.vBool true)) :=
  ⟨((am_pm_boundary ⟨2025, 6, 15, 9, 0, 0⟩ "-04:00" "June" "sun").1
      [("time_data", Value.vDateTime ⟨2025, 6, 15, 9, 0, 0⟩)] rfl).1 (by decide),
   (am_pm_boundary ⟨2025, 6, 15, 9, 0, 0⟩ "-04:00" "June" "sun").2.1 (by decide),
   (am_pm_boundary ⟨2025, 6, 15, 12, 0, 0⟩ "-04:00" "June" "sun").2.2 (by decide)⟩

/-- C2: if a node function raises, the run returns Failed carrying that node
name and the trace stops at that node, with no retry; in particular with a
failing `get_time` the run fails as `get_time` and the trace is exactly
`[get_time]`, so `get_month_name` and `format` never execute. -/
theorem step_failure_halts_run :
    (∀ (g : Graph) (gas : List Unit) (cur : String) (st : AgentState)
        (tr : List String) (f : AgentState → Except StepErr AgentState)
        (err : StepErr), cur ≠ ENDNODE → alookup g.nodes cur = some f →
        f st = Except.error err →
        runFrom g (() :: gas) cur st tr = (RunResult.failed cur, tr ++ [cur])) ∧
    (∀ (e : String) (ma : MonthAgent) (s0 : AgentState),
        app_invoke (workflow (failingTimeAgent e) ma) s0 =
          (RunResult.failed "get_time", ["get_time"])) := by
  constructor
  · exact runFrom_fail
  · intro e ma s0
    obtain ⟨err, herr⟩ := failingTimeAgent_node_err e s0
    exact run_forward_fail_get_time (failingTimeAgent e) ma s0 err herr

/-- C2 witness: a concrete failing run. -/
theorem step_failure_halts_run_witness :
    runFrom (workflow (failingTimeAgent "boom") (stubMonthAgent "June" "sun")) [()]
        "get_time" mainConfig [] =
      (RunResult.failed "get_time", [] ++ ["get_time"]) ∧
    app_invoke (workflow (failingTimeAgent "boom") (stubMonthAgent "June" "sun"))
        mainConfig = (RunResult.failed "get_time", ["get_time"]) :=
  ⟨step_failure_halts_run.1 _ [] "get_time" mainConfig []
      (get_time_node (failingTimeAgent "boom")) (StepErr.agentError "boom")
      (by decide) rfl rfl,
   step_failure_halts_run.2 "boom" (stubMonthAgent "June" "sun") mainConfig⟩

/-- C3: in every successfully completed run of the compiled workflow the
trace is duplicate-free, so each node name appears at most once. -/
theorem single_execution_per_run (ta : TimeAgent) (ma : MonthAgent)
    (s0 sf : AgentState) (t : List String)
    (hrun : app_invoke (workflow ta ma) s0 = (RunResult.completed sf, t)) :
    t.Nodup ∧ ∀ n : String, t.count n ≤ 1 := by
  obtain ⟨s1, s2, s3, -, -, -, hcase⟩ := run_completed_inv ta ma s0 sf t hrun
  have hnd : t.Nodup := by
    rcases hcase with ⟨-, -, ht⟩ | ⟨-, -, ht⟩ <;> subst ht <;> decide
  exact ⟨hnd, fun n => List.nodup_iff_count_le_one.mp hnd n⟩

/-- C3 witness: the trace of a concrete completed run is duplicate-free. -/
theorem single_execution_per_run_witness :
    (["get_time", "get_month_name", "format", "is_AM"] : List String).Nodup :=
  (single_execution_per_run (stubTimeAgent ⟨2025, 6, 15, 9, 0, 0⟩ "-04:00")
    (stubMonthAgent "June" "sun") mainConfig _ _ rfl).1

/-- C4: each node only writes its declared slots; every other slot reads the
same before and after — `get_time` writes `time_data` and `utc_offset`,
`get_month_name` writes `month_name` and `month_emoji`, `format` writes
`final_answer`, and `is_AM` and `is_PM` modify only `final_answer`. -/
theorem state_additivity :
    (∀ (ta : TimeAgent) (s s' : AgentState), get_time_node ta s = Except.ok s' →
      ∀ k, k ≠ "time_data" → k ≠ "utc_offset" → alookup s' k = alookup s k) ∧
    (∀ (ma : MonthAgent) (s s' : AgentState), get_month_name_node ma s = Except.ok s' →
      ∀ k, k ≠ "month_name" → k ≠ "month_emoji" → alookup s' k = alookup s k) ∧
    (∀ (s s' : AgentState), format_response s = Except.ok s' →
      ∀ k, k ≠ "final_answer" → alookup s' k = alookup s k) ∧
    (∀ (s s' : AgentState), add_AM s = Except.ok s' →
      ∀ k, k ≠ "final_answer" → alookup s' k = alookup s k) ∧
    (∀ (s s' : AgentState), add_PM s = Except.ok s' →
      ∀ k, k ≠ "final_answer" → alookup s' k = alookup s k) :=
  ⟨get_time_node_frame, get_month_name_node_frame, format_response_frame,
   add_AM_frame, add_PM_frame⟩

/-- C4 witness: after a concrete `get_time` node the `timezone` slot is
unchanged. -/
theorem state_additivity_witness :
    alookup (timeState ⟨2025, 6, 15, 9, 0, 0⟩ "-04:00") "timezone" =
      alookup mainConfig "timezone" :=
  state_additivity.1 (stubTimeAgent ⟨2025, 6, 15, 9, 0, 0⟩ "-04:00") mainConfig
    (timeState ⟨2025, 6, 15, 9, 0, 0⟩ "-04:00") rfl "timezone" (by decide) (by decide)

/-- C5: on every state reachable at the branch point (after the
`get_time` to `get_month_name` to `format` chain succeeded) the decision
function returns a label, the label is one of the two declared ones, and
both labels name registered nodes — no unmapped label and no exception. -/
theorem branch_totality_on_reachable (ta : TimeAgent) (ma : MonthAgent)
    (s0 s1 s2 s3 : AgentState)
    (h1 : get_time_node ta s0 = Except.ok s1)
    (h2 : get_month_name_node ma s1 = Except.ok s2)
    (h3 : format_response s2 = Except.ok s3) :
    (is_AM_or_PM s3 = Except.ok "is_AM" ∨ is_AM_or_PM s3 = Except.ok "is_PM") ∧
    (alookup (workflow ta ma).nodes "is_AM").isSome = true ∧
    (alookup (workflow ta ma).nodes "is_PM").isSome = true := by
  obtain ⟨dt, hdt⟩ := reachable_branch_time_data ta ma s0 s1 s2 s3 h1 h2 h3
  refine ⟨?_, rfl, rfl⟩
  by_cases hlt : dt.hour < 12
  · left
    unfold is_AM_or_PM
    rw [hdt]
    show Except.ok (if dt.hour < 12 then "is_AM" else "is_PM") = Except.ok "is_AM"
    rw [if_pos hlt]
  · right
    unfold is_AM_or_PM
    rw [hdt]
    show Except.ok (if dt.hour < 12 then "is_AM" else "is_PM") = Except.ok "is_PM"
    rw [if_neg hlt]

/-- C5 witness: the decision at a concrete reachable branch state. -/
theorem branch_totality_on_reachable_witness :
    (is_AM_or_PM (formatState ⟨2025, 6, 15, 9, 0, 0⟩ "-04:00" "June" "sun") =
        Except.ok "is_AM" ∨
     is_AM_or_PM (formatState ⟨2025, 6, 15, 9, 0, 0⟩ "-04:00" "June" "sun") =
        Except.ok "is_PM") ∧
    (alookup (workflow (stubTimeAgent ⟨2025, 6, 15, 9, 0, 0⟩ "-04:00")
        (stubMonthAgent "June" "sun")).nodes "is_AM").isSome = true ∧
    (alookup (workflow (stubTimeAgent ⟨2025, 6, 15, 9, 0, 0⟩ "-04:00")
        (stubMonthAgent "June" "sun")).nodes "is_PM").isSome = true :=
  branch_totality_on_reachable (stubTimeAgent ⟨2025, 6, 15, 9, 0, 0⟩ "-04:00")
    (stubMonthAgent "June" "sun") mainConfig
    (timeState ⟨2025, 6, 15, 9, 0, 0⟩ "-04:00")
    (monthState ⟨2025, 6, 15, 9, 0, 0⟩ "-04:00" "June" "sun")
    (formatState ⟨2025, 6, 15, 9, 0, 0⟩ "-04:00" "June" "sun") rfl rfl rfl

/-- C6: the state schema is closed — if the input state of any node only
uses slots of the declared AgentState schema, so does its output state. -/
theorem closed_schema :
    (∀ (ta : TimeAgent) (s s' : AgentState), get_time_node ta s = Except.ok s' →
      (∀ k, k ∈ dkeys s → k ∈ agentStateSchema) →
      ∀ k, k ∈ dkeys s' → k ∈ agentStateSchema) ∧
    (∀ (ma : MonthAgent) (s s' : AgentState), get_month_name_node ma s = Except.ok s' →
      (∀ k, k ∈ dkeys s → k ∈ agentStateSchema) →
      ∀ k, k ∈ dkeys s' → k ∈ agentStateSchema) ∧
    (∀ (s s' : AgentState), format_response s = Except.ok s' →
      (∀ k, k ∈ dkeys s → k ∈ agentStateSchema) →
      ∀ k, k ∈ dkeys s' → k ∈ agentStateSchema) ∧
    (∀ (s s' : AgentState), add_AM s = Except.ok s' →
      (∀ k, k ∈ dkeys s → k ∈ agentStateSchema) →
      ∀ k, k ∈ dkeys s' → k ∈ agentStateSchema) ∧
    (∀ (s s' : AgentState), add_PM s = Except.ok s' →
      (∀ k, k ∈ dkeys s → k ∈ agentStateSchema) →
      ∀ k, k ∈ dkeys s' → k ∈ agentStateSchema) := by
  refine ⟨?_, ?_, ?_, ?_, ?_⟩
  · intro ta s s' h hs k hk
    rcases get_time_node_keys ta s s' h k hk with rfl | rfl | hk'
    · decide
    · decide
    · exact hs k hk'
  · intro ma s s' h hs k hk
    rcases get_month_name_node_keys ma s s' h k hk with rfl | rfl | hk'
    · decide
    · decide
    · exact hs k hk'
  · intro s s' h hs k hk
    rcases format_response_keys s s' h k hk with rfl | hk'
    · decide
    · exact hs k hk'
  · intro s s' h hs k hk
    rcases add_AM_keys s s' h k hk with rfl | hk'
    · decide
    · exact hs k hk'
  · intro s s' h hs k hk
    rcases add_PM_keys s s' h k hk with rfl | hk'
    · decide
    · exact hs k hk'

/-- C6 witness: a key written by a concrete `get_time` step is in the
schema. -/
theorem closed_schema_witness :
    "utc_offset" ∈ agentStateSchema :=
  closed_schema.1 (stubTimeAgent ⟨2025, 6, 15, 9, 0, 0⟩ "-04:00") mainConfig
    (timeState ⟨2025, 6, 15, 9, 0, 0⟩ "-04:00") rfl
    (by intro k hk
        simp only [mainConfig, dkeys, List.map_cons, List.map_nil, List.mem_cons,
          List.not_mem_nil, or_false] at hk
        rcases hk with rfl | rfl <;> decide)
    "utc_offset" (by decide)

/-- C7: the branch decision is a pure function of state content — two states
agreeing on `time_data` (in particular, identical states) yield the same
label; in the embedding the decision returns only a label and cannot mutate
the state. -/
theorem branch_deterministic (s t : AgentState)
    (h : alookup s "time_data" = alookup t "time_data") :
    is_AM_or_PM s = is_AM_or_PM t := by
  unfold is_AM_or_PM
  rw [h]

/-- C7 witness: two distinct states with equal `time_data` get equal labels. -/
theorem branch_deterministic_witness :
    is_AM_or_PM [("time_data", Value.vDateTime ⟨2025, 6, 15, 11, 59, 59⟩)] =
      is_AM_or_PM [("timezone", Value.vStr "Asia/Seoul"),
        ("time_data", Value.vDateTime ⟨2025, 6, 15, 11, 59, 59⟩)] :=
  branch_deterministic _ _ rfl

/-- C8 counterexample: the tool never inspects the HTTP status code, so a
non-2xx (here 500) response whose JSON body still has a datetime field is
accepted and its value returned — a non-2xx response does not, by itself,
propagate as a failure, contrary to the claim as stated. -/
theorem status_not_checked_cex :
    get_time fetch500WithDatetime "America/New_York" =
      Except.ok (Json.jstr "2025-06-15T09:00:00.000000-04:00") := rfl

/-- C8 amended: failures of the external call that the code can observe do
propagate and are never replaced by a default — a success returns exactly
the datetime field of the fetched payload, a network error propagates as
that error, a malformed payload propagates as a json.loads failure, and a
payload lacking the field propagates as a KeyError.  The HTTP status code
is not inspected, so a non-2xx response fails only through its payload. -/
theorem get_time_failure_propagation (fetch : String → NetResult) (tz : String) :
    (∀ v, get_time fetch tz = Except.ok v →
      ∃ status fields,
        fetch ("http://worldtimeapi.org/api/timezone/" ++ tz) =
          NetResult.response status (BodyResult.json (Json.jobj fields)) ∧
        alookup fields "datetime" = some v) ∧
    (∀ e, fetch ("http://worldtimeapi.org/api/timezone/" ++ tz) =
        NetResult.netError e → get_time fetch tz = Except.error e) ∧
    (∀ status, fetch ("http://worldtimeapi.org/api/timezone/" ++ tz) =
        NetResult.response status BodyResult.malformed →
      get_time fetch tz = Except.error "json.loads: malformed payload") ∧
    (∀ status fields, fetch ("http://worldtimeapi.org/api/timezone/" ++ tz) =
        NetResult.response status (BodyResult.json (Json.jobj fields)) →
      alookup fields "datetime" = none →
      get_time fetch tz = Except.error "KeyError: datetime") := by
  refine ⟨?_, ?_, ?_, ?_⟩
  · intro v hv
    cases hf : fetch ("http://worldtimeapi.org/api/timezone/" ++ tz) with
    | netError e =>
      have hred : get_time fetch tz = Except.error e := by
        unfold get_time; rw [hf]
      rw [hred] at hv
      cases hv
    | response status body =>
      cases body with
      | malformed =>
        have hred : get_time fetch tz =
            Except.error "json.loads: malformed payload" := by
          unfold get_time; rw [hf]
        rw [hred] at hv
        cases hv
      | json j =>
        cases j with
        | jobj fields =>
          have hred : get_time fetch tz = (match alookup fields "datetime" with
              | some w => Except.ok w
              | none => Except.error "KeyError: datetime") := by
            unfold get_time; rw [hf]
          cases hl : alookup fields "datetime" with
          | none =>
            rw [hred, hl] at hv
            cases hv
          | some w =>
            rw [hred, hl] at hv
            cases hv
            exact ⟨status, fields, rfl, hl⟩
        | null =>
          have hred : get_time fetch tz =
              Except.error "TypeError: value is not subscriptable" := by
            unfold get_time; rw [hf]
          rw [hred] at hv
          cases hv
        | jbool b =>
          have hred : get_time fetch tz =
              Except.error "TypeError: value is not subscriptable" := by
            unfold get_time; rw [hf]
          rw [hred] at hv
          cases hv
        | jnum n =>
          have hred : get_time fetch tz =
              Except.error "TypeError: value is not subscriptable" := by
            unfold get_time; rw [hf]
          rw [hred] at hv
          cases hv
        | jstr a =>
          have hred : get_time fetch tz =
              Except.error "TypeError: value is not subscriptable" := by
            unfold get_time; rw [hf]
          rw [hred] at hv
          cases hv
        | jarr l =>
          have hred : get_time fetch tz =
              Except.error "TypeError: value is not subscriptable" := by
            unfold get_time; rw [hf]
          rw [hred] at hv
          cases hv
  · intro e he
    unfold get_time
    rw [he]
  · intro status hs
    unfold get_time
    rw [hs]
  · intro status fields hs hl
    unfold get_time
    rw [hs]
    show (match alookup fields "datetime" with
      | some v => Except.ok v
      | none => Except.error "KeyError: datetime") = _
    rw [hl]

/-- C8 witness: concrete network-error, malformed-payload and missing-field
failures all propagate as errors. -/
theorem get_time_failure_propagation_witness :
    get_time fetchNetDown "America/New_York" =
      Except.error "connection refused" ∧
    get_time fetchMalformed "America/New_York" =
      Except.error "json.loads: malformed payload" ∧
    get_time fetchNoDatetimeField "America/New_York" =
      Except.error "KeyError: datetime" :=
  ⟨(get_time_failure_propagation fetchNetDown "America/New_York").2.1
      "connection refused" rfl,
   (get_time_failure_propagation fetchMalformed "America/New_York").2.2.1 200 rfl,
   (get_time_failure_propagation fetchNoDatetimeField "America/New_York").2.2.2 200
      [("error", Json.jstr "unknown timezone")] rfl rfl⟩

/-- C9: `is_AM` and `is_PM` require `final_answer` to be populated — they
raise KeyError when the slot is absent and TypeError when it is None — and
after any successful `format` step (which precedes them on every path of
the graph) both succeed. -/
theorem final_answer_dereference_safety :
    (∀ s : AgentState, alookup s "final_answer" = none →
      add_AM s = Except.error (StepErr.keyError "final_answer") ∧
      add_PM s = Except.error (StepErr.keyError "final_answer")) ∧
    (∀ s : AgentState, alookup s "final_answer" = some Value.vNone →
      add_AM s = Except.error
        (StepErr.typeError "object does not support item assignment") ∧
      add_PM s = Except.error
        (StepErr.typeError "object does not support item assignment")) ∧
    (∀ s s' : AgentState, format_response s = Except.ok s' →
      (add_AM s').isOk = true ∧ (add_PM s').isOk = true) := by
  refine ⟨fun s h => ⟨add_AM_keyError s h, add_PM_keyError s h⟩,
          fun s h => ⟨add_AM_typeError s h, add_PM_typeError s h⟩,
          fun s s' h => ?_⟩
  obtain ⟨d, hd⟩ := format_response_sets_final_answer s s' h
  obtain ⟨u, hu⟩ := add_AM_ok_of_dict s' d hd
  obtain ⟨w, hw⟩ := add_PM_ok_of_dict s' d hd
  rw [hu, hw]
  exact ⟨rfl, rfl⟩

/-- C9 witness: concrete absent, None and populated `final_answer` cases. -/
theorem final_answer_dereference_safety_witness :
    (add_AM mainConfig = Except.error (StepErr.keyError "final_answer") ∧
     add_PM mainConfig = Except.error (StepErr.keyError "final_answer")) ∧
    (add_AM [("final_answer", Value.vNone)] = Except.error
        (StepErr.typeError "object does not support item assignment") ∧
     add_PM [("final_answer", Value.vNone)] = Except.error
        (StepErr.typeError "object does not support item assignment")) ∧
    ((add_AM (formatState ⟨2025, 6, 15, 9, 0, 0⟩ "-04:00" "June" "sun")).isOk = true ∧
     (add_PM (formatState ⟨2025, 6, 15, 9, 0, 0⟩ "-04:00" "June" "sun")).isOk = true) :=
  ⟨final_answer_dereference_safety.1 mainConfig rfl,
   final_answer_dereference_safety.2.1 [("final_answer", Value.vNone)] rfl,
   final_answer_dereference_safety.2.2
     (monthState ⟨2025, 6, 15, 9, 0, 0⟩ "-04:00" "June" "sun")
     (formatState ⟨2025, 6, 15, 9, 0, 0⟩ "-04:00" "June" "sun") rfl⟩

/-- C10: the final state of every completed run has both AM and PM keys in
`final_answer` and exactly one of them True (AM is the negation of PM),
whichever branch ran. -/
theorem am_xor_pm_invariant (ta : TimeAgent) (ma : MonthAgent)
    (s0 sf : AgentState) (t : List String)
    (hrun : app_invoke (workflow ta ma) s0 = (RunResult.completed sf, t)) :
    (faLookup sf "AM" = some (Value.vBool true) ∧
     faLookup sf "PM" = some (Value.vBool false)) ∨
    (faLookup sf "AM" = some (Value.vBool false) ∧
     faLookup sf "PM" = some (Value.vBool true)) := by
  obtain ⟨s1, s2, s3, -, -, -, hcase⟩ := run_completed_inv ta ma s0 sf t hrun
  rcases hcase with ⟨-, h5, -⟩ | ⟨-, h5, -⟩
  · exact Or.inl (add_AM_post s3 sf h5)
  · exact Or.inr (add_PM_post s3 sf h5)

/-- C10 witness: a concrete completed run satisfies the AM/PM invariant. -/
theorem am_xor_pm_invariant_witness :
    (faLookup (amState ⟨2025, 6, 15, 9, 0, 0⟩ "-04:00" "June" "sun") "AM" =
        some (Value.vBool true) ∧
     faLookup (amState ⟨2025, 6, 15, 9, 0, 0⟩ "-04:00" "June" "sun") "PM" =
        some (Value.vBool false)) ∨
    (faLookup (amState ⟨2025, 6, 15, 9, 0, 0⟩ "-04:00" "June" "sun") "AM" =
        some (Value.vBool false) ∧
     faLookup (amState ⟨2025, 6, 15, 9, 0, 0⟩ "-04:00" "June" "sun") "PM" =
        some (Value.vBool true)) :=
  am_xor_pm_invariant (stubTimeAgent ⟨2025, 6, 15, 9, 0, 0⟩ "-04:00")
    (stubMonthAgent "June" "sun") mainConfig
    (amState ⟨2025, 6, 15, 9, 0, 0⟩ "-04:00" "June" "sun")
    ["get_time", "get_month_name", "format", "is_AM"] rfl
